import Mathlib

/-!
Shallow embedding of the build-tooling scripts of the HomeKitKnock-S3
repository (`tools/embed_web_assets.py`, `tools/convert_wav_to_pcm.py`,
`tools/build_ota.py`, `tools/pio_version.py`, `tools/pio_fs_partition.py`,
`tools/embed_web_assets_pre.py`) together with theorems settling the
specification claims about them.

Bytes are modelled as `List Nat` (each element a byte value), text as
`String`. Filesystem reads and external effects are surfaced as explicit
inputs; writes and exit codes are returned in result structures.
-/

namespace HKK

/-- The set of characters stripped by Python `str.strip()` with no
argument (restricted to the ASCII whitespace characters, which are the
only ones occurring in `.ini` build files). -/
def isPyWhitespace (c : Char) : Bool :=
  c = ' ' || c = '\t' || c = '\n' || c = '\x0d' || c = '\x0b' || c = '\x0c'

/-- Python `str.strip()`: drop leading and trailing whitespace. -/
def pyStrip (s : String) : String :=
  ⟨((s.data.dropWhile isPyWhitespace).reverse.dropWhile isPyWhitespace).reverse⟩

/-- Python `str.lstrip("v")`: drop every leading `v`. -/
def pyLstripV (s : String) : String :=
  ⟨s.data.dropWhile (· = 'v')⟩

/-- Python substring test `pat in s` on character lists. -/
def containsSub (pat : List Char) : List Char → Bool
  | [] => pat.isEmpty
  | c :: rest => pat.isPrefixOf (c :: rest) || containsSub pat rest

/-- Python substring test `pat in s` on strings. -/
def pyIn (pat s : String) : Bool :=
  containsSub pat.data s.data

/-- Core of Python `str.replace(old, new, count)`: scan left to right,
replacing at most `count` non-overlapping occurrences of `old` by `new`.
The scripts only call `replace` with a non-empty `old`; for `old = []`
the scan is left unchanged. The first argument is structural fuel; each
step consumes at least one character of the scanned list, so fuel equal
to its length makes the fuel-exhausted branch unreachable. -/
def pyReplaceFuel (old new : List Char) : Nat → List Char → Nat → List Char
  | _, [], _ => []
  | 0, s, _ => s
  | fuel + 1, c :: rest, count =>
    if count = 0 ∨ old = [] then c :: rest
    else if old.isPrefixOf (c :: rest) then
      new ++ pyReplaceFuel old new fuel (rest.drop (old.length - 1)) (count - 1)
    else
      c :: pyReplaceFuel old new fuel rest count

/-- Python `str.replace(old, new, count)` on strings. -/
def pyReplaceN (s old new : String) (count : Nat) : String :=
  ⟨pyReplaceFuel old.data new.data s.data.length s.data count⟩

/-- Python `str.replace(old, new)` (no count: replace every occurrence;
`s.length + 1` exceeds any possible number of non-overlapping
occurrences of a non-empty pattern). -/
def pyReplace (s old new : String) : String :=
  pyReplaceN s old new (s.length + 1)

/-- The final path component as in `pathlib.PurePosixPath(s).name`:
the last non-empty `/`-separated segment, with the special components
`.` and `..` having an empty name. -/
def pathNameChars (s : List Char) : List Char :=
  let n := ((s.splitOn '/').filter (· ≠ [])).getLastD []
  if n = ['.'] ∨ n = ['.', '.'] then [] else n

/-- Index of the last `.` in a character list, if any. -/
def lastDotIdx (name : List Char) : Option Nat :=
  (name.reverse.findIdx? (· = '.')).map (fun j => name.length - 1 - j)

/-- `pathlib.Path(s).suffix`: the extension of the final component,
including the dot, provided the last dot is neither the first nor the
last character of the name; otherwise empty. -/
def pathSuffix (s : String) : String :=
  let name := pathNameChars s.data
  match lastDotIdx name with
  | none => ""
  | some i => if 0 < i ∧ i + 1 < name.length then ⟨name.drop i⟩ else ""

/-- `pathlib.Path(s).stem`: the final component without its suffix. -/
def pathStem (s : String) : String :=
  let name := pathNameChars s.data
  match lastDotIdx name with
  | none => ⟨name⟩
  | some i => if 0 < i ∧ i + 1 < name.length then ⟨name.take i⟩ else ⟨name⟩

/-- Python `str.lower()` restricted to ASCII letters (the only letters
appearing in the fixed extension table and in the allow-listed
filenames). -/
def pyLower (s : String) : String :=
  ⟨s.data.map Char.toLower⟩

/-- `f"0x{b:02x}"`: a byte rendered as lowercase hex, zero-padded to
width two. -/
def hexByte (b : Nat) : String :=
  let ds := Nat.toDigits 16 b
  "0x" ++ ⟨if ds.length < 2 then '0' :: ds else ds⟩

/-- The `range(0, len, 16)` chunking loop of `to_hex_string`, with
structural fuel; each step consumes at least one byte, so fuel equal to
the data length makes the fuel-exhausted branch unreachable. -/
def chunksFuel : Nat → List Nat → List (List Nat)
  | _, [] => []
  | 0, _ => []
  | fuel + 1, data => data.take 16 :: chunksFuel fuel (data.drop 16)

/-- Split a byte list into chunks of 16 (the `range(0, len, 16)` loop of
`to_hex_string`). -/
def chunks16 (data : List Nat) : List (List Nat) :=
  chunksFuel data.length data

/-- `to_hex_string` from `embed_web_assets.py`: bytes formatted as a C
array body, 16 bytes per line. -/
def to_hex_string (data : List Nat) : String :=
  String.intercalate ",\n"
    ((chunks16 data).map
      (fun chunk => "    " ++ String.intercalate ", " (chunk.map hexByte)))

/-- One step of the bitwise CRC-32 (polynomial `0xEDB88320`), as
computed by `zlib.crc32`. -/
def crc32Round (c : Nat) : Nat :=
  if c % 2 = 1 then Nat.xor (c / 2) 0xEDB88320 else c / 2

/-- Fold one byte into a CRC-32 accumulator. -/
def crc32Byte (c b : Nat) : Nat :=
  (List.range 8).foldl (fun acc _ => crc32Round acc) (Nat.xor c b)

/-- `zlib.crc32(data)`. -/
def crc32 (data : List Nat) : Nat :=
  Nat.xor (data.foldl crc32Byte 0xFFFFFFFF) 0xFFFFFFFF

/-- A 32-bit value in little-endian byte order (`struct.pack("<L", ·)`). -/
def le32 (n : Nat) : List Nat :=
  [n % 256, n / 256 % 256, n / 65536 % 256, n / 16777216 % 256]

/-- The 10-byte gzip member header written by CPython's
`gzip.compress(data)` at compression level 9 with the default
`mtime=None`: magic bytes, deflate method, no flags, the current Unix
time (`int(time.time())`, stored as an unsigned 32-bit little-endian
field), `XFL = 2` (best compression) and `OS = 255` (unknown). -/
def gzipHeader (mtime : Nat) : List Nat :=
  [0x1f, 0x8b, 8, 0] ++ le32 (mtime % 4294967296) ++ [2, 255]

/-- CPython `gzip.compress(data)` for a non-zero `mtime`: the simple
header, a raw DEFLATE stream of the data, then CRC-32 and input size
modulo 2^32, both little-endian. The DEFLATE body itself is a library
routine (`zlib.compress(..., wbits=-15)`); it is a deterministic pure
function of the input bytes and is passed in as the parameter
`deflate`. -/
def gzipCompress (deflate : List Nat → List Nat) (mtime : Nat)
    (data : List Nat) : List Nat :=
  gzipHeader mtime ++ deflate data ++ le32 (crc32 data) ++
    le32 (data.length % 4294967296)

/-- `compress_content` from `embed_web_assets.py`: `gzip.compress` on the
raw bytes read from the asset file (the `str` branch of the Python
function is dead for this tool, which always reads bytes). `mtime` is
the wall-clock second at which the call runs. -/
def compress_content (deflate : List Nat → List Nat) (mtime : Nat)
    (content : List Nat) : List Nat :=
  gzipCompress deflate mtime content

/-- The fixed extension table of `get_mime_type`. -/
def mimeTypes : List (String × String) :=
  [(".html", "text/html; charset=utf-8"),
   (".css", "text/css; charset=utf-8"),
   (".js", "application/javascript; charset=utf-8"),
   (".json", "application/json"),
   (".svg", "image/svg+xml"),
   (".png", "image/png"),
   (".jpg", "image/jpeg"),
   (".ico", "image/x-icon")]

/-- `get_mime_type` from `embed_web_assets.py`: look the lowercased
extension up in the fixed table, defaulting to
`application/octet-stream`. -/
def get_mime_type (filename : String) : String :=
  ((mimeTypes.find? (fun p => p.1 = pyLower (pathSuffix filename))).map
    Prod.snd).getD "application/octet-stream"

/-- The identifier derived from a filename:
`Path(filename).stem.replace('-', '_').replace('.', '_')`. -/
def varName (filename : String) : String :=
  pyReplace (pyReplace (pathStem filename) "-" "_") "." "_"

/-- `generate_header` from `embed_web_assets.py`: the exact text of the
per-file generated C++ header. -/
def generate_header (filename : String) (compressed_data : List Nat)
    (original_size : Nat) : String :=
  let var_name := varName filename
  let size := compressed_data.length
  "// Auto-generated embedded web asset: " ++ filename ++ "\n" ++
  "// Original size: " ++ toString original_size ++ " bytes, Compressed: " ++
    toString size ++ " bytes\n" ++
  "\n" ++
  "#pragma once\n" ++
  "\n" ++
  "#include <stdint.h>\n" ++
  "#include <stddef.h>\n" ++
  "\n" ++
  "// Embedded " ++ filename ++ " (gzip compressed)\n" ++
  "const uint8_t PROGMEM " ++ var_name ++ "_data[] = \x7b\n" ++
  to_hex_string compressed_data ++ "\n" ++
  "\x7d;\n" ++
  "\n" ++
  "const size_t " ++ var_name ++ "_size = " ++ toString size ++ ";\n" ++
  "const size_t " ++ var_name ++ "_original_size = " ++
    toString original_size ++ ";\n" ++
  "const char " ++ var_name ++ "_mime[] PROGMEM = \"" ++
    get_mime_type filename ++ "\";\n"

/-- The entry stored in `files_data` for one embedded file. -/
structure FileData where
  filename : String
  var_name : String
  original_size : Nat
  compressed_size : Nat
  mime_type : String
deriving DecidableEq

/-- `len(files_data)`, the value interpolated into the
`embedded_files_count` line of the master header. -/
def embeddedFilesCount (files_data : List FileData) : Nat :=
  files_data.length

/-- One `#include` line of the master header:
`f.replace(".html", "").replace(".css", "")` applied to the filename. -/
def includeLine (f : String) : String :=
  "#include \"embedded_" ++ pyReplace (pyReplace f ".html" "") ".css" "" ++
    ".h\""

/-- One registry entry line of the master header. -/
def registryEntry (d : FileData) : String :=
  "    \x7b\"" ++ d.filename ++ "\", " ++ d.var_name ++ "_data, " ++
    d.var_name ++ "_size, " ++ d.var_name ++ "_mime\x7d"

/-- `generate_master_header` from `embed_web_assets.py`: the exact text
of the master registry header. -/
def generate_master_header (files_data : List FileData) : String :=
  let includes := String.intercalate "\n" (files_data.map
    (fun d => includeLine d.filename))
  let registry := String.intercalate ",\n" (files_data.map registryEntry)
  "// Auto-generated master header for embedded web assets\n" ++
  "// This file includes all embedded web assets and provides a registry\n" ++
  "\n" ++
  "#pragma once\n" ++
  "\n" ++
  "#include <stdint.h>\n" ++
  "#include <stddef.h>\n" ++
  "\n" ++
  includes ++ "\n" ++
  "\n" ++
  "// File registry entry\n" ++
  "struct EmbeddedFile \x7b\n" ++
  "    const char* filename;\n" ++
  "    const uint8_t* data;\n" ++
  "    size_t size;\n" ++
  "    const char* mime_type;\n" ++
  "\x7d;\n" ++
  "\n" ++
  "// Registry of all embedded files\n" ++
  "const EmbeddedFile PROGMEM embedded_files[] = \x7b\n" ++
  registry ++ "\n" ++
  "\x7d;\n" ++
  "\n" ++
  "const size_t embedded_files_count = " ++
    toString (embeddedFilesCount files_data) ++ ";\n" ++
  "\n" ++
  "// Helper function to find file by name\n" ++
  "inline const EmbeddedFile* find_embedded_file(const char* filename) \x7b\n" ++
  "    for (size_t i = 0; i < embedded_files_count; i++) \x7b\n" ++
  "        if (strcmp_P(filename, (const char*)pgm_read_ptr(&embedded_files[i].filename)) == 0) \x7b\n" ++
  "            return &embedded_files[i];\n" ++
  "        \x7d\n" ++
  "    \x7d\n" ++
  "    return nullptr;\n" ++
  "\x7d\n"

/-- The fixed allow-list `embed_files` of `embed_web_assets`. -/
def embed_files : List String :=
  ["index.html", "style.css", "setup.html", "wifi-setup.html",
   "live.html", "guide.html", "ota.html", "sip.html",
   "tr064.html", "logs-doorbell.html", "logs-camera.html"]

/-- What happens when the script touches `data_dir / filename`:
the file is absent (`not file_path.exists()`), or the whole
read-compress-write block for it raises some exception, or it is read
successfully, yielding its bytes. -/
inductive FileOutcome where
  | missing
  | err
  | ok (content : List Nat)
deriving DecidableEq

/-- The observable environment of one `embed_web_assets` run: whether
the data directory exists, and the outcome of processing each
allow-listed file. -/
structure RunEnv where
  dataDirExists : Bool
  files : String → FileOutcome

/-- The name of the per-file header written for `filename`:
`f"embedded_{Path(filename).stem}.h"`. -/
def headerFileName (filename : String) : String :=
  "embedded_" ++ pathStem filename ++ ".h"

/-- The `files_data[filename]` dictionary entry built for a successfully
processed file. -/
def mkFileData (filename : String) (content compressed : List Nat) :
    FileData :=
  { filename := filename
    var_name := varName filename
    original_size := content.length
    compressed_size := compressed.length
    mime_type := get_mime_type filename }

/-- The warning printed for an absent allow-listed file. -/
def skipWarning (filename : String) : String :=
  "Warning: Skipping " ++ filename ++ " - not found"

/-- State accumulated by the `for filename in embed_files` loop. -/
structure LoopState where
  success : Bool
  headers : List (String × String)
  filesData : List FileData
  warnings : List String
deriving DecidableEq

/-- The per-file loop of `embed_web_assets`: missing files are skipped
with a warning; a raised exception returns failure immediately (files
after it are not processed); otherwise the file is compressed, its
header written, and its registry entry recorded. -/
def processFiles (compress : List Nat → List Nat) (env : RunEnv) :
    List String → LoopState
  | [] => ⟨true, [], [], []⟩
  | name :: rest =>
    match env.files name with
    | .missing =>
      let s := processFiles compress env rest
      ⟨s.success, s.headers, s.filesData, skipWarning name :: s.warnings⟩
    | .err => ⟨false, [], [], []⟩
    | .ok content =>
      let compressed := compress content
      let hdr := generate_header name compressed content.length
      let s := processFiles compress env rest
      ⟨s.success, (headerFileName name, hdr) :: s.headers,
        mkFileData name content compressed :: s.filesData, s.warnings⟩

/-- The outcome of one `embed_web_assets(data_dir, output_dir)` call:
the return value, the per-file headers written (name and exact
contents, in order), the master header contents if written, and the
warnings printed. -/
structure RunResult where
  success : Bool
  headersWritten : List (String × String)
  masterWritten : Option String
  warnings : List String
deriving DecidableEq

/-- `embed_web_assets` from `embed_web_assets.py`: fails if the data
directory is absent; otherwise runs the per-file loop over the fixed
allow-list, and writes the master registry header only when every
present file was processed without error. -/
def embed_web_assets (compress : List Nat → List Nat) (env : RunEnv) :
    RunResult :=
  if env.dataDirExists then
    let s := processFiles compress env embed_files
    if s.success then
      ⟨true, s.headers, some (generate_master_header s.filesData),
        s.warnings⟩
    else
      ⟨false, s.headers, none, s.warnings⟩
  else
    ⟨false, [], none, []⟩

/-- The observable outcome of running `embed_web_assets.py` as a
script: the process exit code, whether the usage line was printed, and
the result of the `embed_web_assets` call if it was reached (`none`
means no file was read or written). -/
structure CliResult where
  exitCode : Nat
  usagePrinted : Bool
  run : Option RunResult
deriving DecidableEq

/-- The `__main__` block of `embed_web_assets.py`: with
`len(sys.argv) != 3` it prints the usage line and exits 1 before
touching any file; otherwise it runs `embed_web_assets` on the two
arguments and exits 0 on success, 1 on failure. -/
def embedCliMain (argv : List String) (compress : List Nat → List Nat)
    (env : RunEnv) : CliResult :=
  if argv.length = 3 then
    let r := embed_web_assets compress env
    ⟨if r.success then 0 else 1, false, some r⟩
  else
    ⟨1, true, none⟩

/-- The relevant parameters of a successfully opened WAV file, as read
by `wave.open` in `convert_wav_to_pcm.py`: channel count, bytes per
sample, frame rate, and the raw frame bytes returned by
`readframes(getnframes())`. -/
structure WavFile where
  channels : Nat
  sampwidth : Nat
  framerate : Nat
  frames : List Nat
deriving DecidableEq

/-- The observable outcome of `convert_wav_to_pcm.py`: the exit code
(`raise SystemExit(main())` makes the return value the exit code), the
bytes written to the output path (`none`: the output file is neither
written nor created), and which messages were printed. -/
structure ConvResult where
  exitCode : Nat
  outputWritten : Option (List Nat)
  usagePrinted : Bool
  errorPrinted : Bool
  warningPrinted : Bool
deriving DecidableEq

/-- `main` of `convert_wav_to_pcm.py`: rejects a wrong argument count
with the usage line; rejects input that is not mono 16-bit before the
output file is opened; warns (non-fatally) on a sample rate other than
16000; otherwise writes the frame bytes unchanged to the output path
and returns 0. -/
def convertWavMain (argv : List String) (wav : WavFile) : ConvResult :=
  if argv.length = 3 then
    if wav.channels ≠ 1 ∨ wav.sampwidth ≠ 2 then
      ⟨1, none, false, true, false⟩
    else
      ⟨0, some wav.frames, false, false, decide (wav.framerate ≠ 16000)⟩
  else
    ⟨1, none, true, false, false⟩

/-- An `.ini` section: a list of key–value options (`configparser` with
`optionxform = str`, so keys keep their case). -/
abbrev IniSection := List (String × String)

/-- A parsed `platformio.ini`: named sections with their options. -/
abbrev IniFile := List (String × IniSection)

/-- The two exceptions `load_version` in `build_ota.py` can raise. -/
inductive OtaError where
  | fileNotFound
  | keyError
deriving DecidableEq

/-- `load_version` from `build_ota.py`: `FileNotFoundError` when
`config.read` finds no file, `KeyError` when the `env:<env>` section or
its `custom_fw_version` option is absent, else the stripped value. -/
def load_version (ini : Option IniFile) (envName : String) :
    Except OtaError String :=
  match ini with
  | none => .error .fileNotFound
  | some sections =>
    match (sections.find? (fun p => p.1 = "env:" ++ envName)).map Prod.snd with
    | none => .error .keyError
    | some kvs =>
      match (kvs.find? (fun p => p.1 = "custom_fw_version")).map Prod.snd with
      | none => .error .keyError
      | some v => .ok (pyStrip v)

/-- The parsed command line of `build_ota.py` (`parse_args`): the
target environment, the artifact name stem, the optional `--version`
override, and the two skip flags. -/
structure OtaArgs where
  envName : String
  pfx : String
  version : Option String
  skipFirmware : Bool
  skipFs : Bool

/-- The observable trace of one `build_ota.py` run, assuming the
external `pio` commands themselves succeed (their own failure would
propagate via `check=True`, which is outside this claim's scope):
whether the process exits successfully, the external commands invoked,
and the artifacts copied as (source name, destination name). -/
structure OtaTrace where
  exitOk : Bool
  commandsRun : List (List String)
  artifactsCopied : List (String × String)
deriving DecidableEq

/-- `build_and_export` from `build_ota.py`: build and copy the firmware
image unless skipped, then the filesystem image unless skipped. -/
def build_and_export (args : OtaArgs) (version : String) : OtaTrace :=
  let fwCmds := if args.skipFirmware then [] else
    [["pio", "run", "-e", args.envName]]
  let fwCopies := if args.skipFirmware then [] else
    [("firmware.bin", args.pfx ++ "-" ++ version ++ "-firmware.bin")]
  let fsCmds := if args.skipFs then [] else
    [["pio", "run", "-t", "buildfs", "-e", args.envName]]
  let fsCopies := if args.skipFs then [] else
    [("littlefs.bin", args.pfx ++ "-" ++ version ++ "-littlefs.bin")]
  ⟨true, fwCmds ++ fsCmds, fwCopies ++ fsCopies⟩

/-- `main` of `build_ota.py`: `args.version or load_version(...)` —
the override is used when truthy (Python `or` treats the empty string
as absent); an exception raised by `load_version` escapes `main`, so
the interpreter exits non-zero with no command run and no artifact
copied. -/
def otaMain (args : OtaArgs) (ini : Option IniFile) : OtaTrace :=
  let override := match args.version with
    | some v => if v = "" then none else some v
    | none => none
  match (match override with
         | some v => Except.ok v
         | none => load_version ini args.envName) with
  | .error _ => ⟨false, [], []⟩
  | .ok version => build_and_export args version

/-- Python truthiness of an optional string (`if custom_version:`):
`None` and the empty string are falsy. -/
def truthyStr : Option String → Bool
  | none => false
  | some s => s ≠ ""

/-- `read_version_base` from `pio_version.py`: the project option if
truthy (`lstrip("v").strip()` applied), else the latest git tag with
leading `v`s stripped, else the fixed fallback `"0.0.0"`. `tagResult`
is the result of `git describe --tags --abbrev=0` (`none`: the command
raised). -/
def read_version_base (custom tagResult : Option String) : String :=
  if truthyStr custom then pyStrip (pyLstripV (custom.getD ""))
  else
    match tagResult with
    | some tag => pyLstripV tag
    | none => "0.0.0"

/-- `read_git_hash` from `pio_version.py`: the short commit hash, or
`"nogit"` when the git command raised. -/
def read_git_hash (hashResult : Option String) : String :=
  hashResult.getD "nogit"

/-- `fw_version` as computed at module level in `pio_version.py`:
`f"{version_base}+{git_hash}"`. -/
def fw_version (custom tagResult hashResult : Option String) : String :=
  read_version_base custom tagResult ++ "+" ++ read_git_hash hashResult

/-- The original subtype string literal searched for in the upstream
espressif32 builder (`needle` in `pio_fs_partition.py`). -/
def fsSubtypeNeedle : String :=
  "p[\"subtype\"] in (\"spiffs\", \"fat\", \"littlefs\")"

/-- The replacement literal accepting the numeric subtype `0x83`. -/
def fsSubtypePatched : String :=
  "p[\"subtype\"] in (\"spiffs\", \"fat\", \"littlefs\", \"0x83\")"

/-- The pure content transformation performed by
`patch_espressif32_builder`: no change when the needle is absent or the
single-occurrence replacement would leave the text unchanged, else the
text with its first needle occurrence replaced. -/
def patchBuilderContent (content : String) : String :=
  if pyIn fsSubtypeNeedle content then
    let patched := pyReplaceN content fsSubtypeNeedle fsSubtypePatched 1
    if patched = content then content else patched
  else content

/-- The outcome of `patch_espressif32_builder`: the resulting builder
file content (`none` when the file does not exist) and whether the file
was rewritten. -/
structure PatchResult where
  content : Option String
  wrote : Bool
deriving DecidableEq

/-- `patch_espressif32_builder` from `pio_fs_partition.py`: returns
without writing when the builder file is absent, when the needle is no
longer present, or when replacement changes nothing; otherwise writes
the patched content. -/
def patch_espressif32_builder (builderFile : Option String) : PatchResult :=
  match builderFile with
  | none => ⟨none, false⟩
  | some content =>
    if pyIn fsSubtypeNeedle content then
      let patched := pyReplaceN content fsSubtypeNeedle fsSubtypePatched 1
      if patched = content then ⟨some content, false⟩
      else ⟨some patched, true⟩
    else ⟨some content, false⟩

/-- The filesystem-related targets gating the patch
(`FS_TARGETS` in `pio_fs_partition.py`). -/
def fsTargets : List String := ["buildfs", "uploadfs", "uploadfsota"]

/-- The module-level guard of `pio_fs_partition.py`:
`FS_TARGETS & set(COMMAND_LINE_TARGETS)` is non-empty. -/
def shouldPatch (commandLineTargets : List String) : Bool :=
  fsTargets.any (fun t => commandLineTargets.contains t)

/-- The argument vector the pre-build hook
(`embed_web_assets_pre.py`) constructs for an ESP-IDF-only build:
interpreter script path, data dir, include dir, and the `--idf` flag —
four entries. -/
def idfHookArgv (dataDir includeDir : String) : List String :=
  ["embed_web_assets.py", dataDir, includeDir, "--idf"]

/-- Whether a file outcome is a successful read. -/
def isOkOutcome : FileOutcome → Bool
  | .ok _ => true
  | _ => false

/-- Whether a file outcome is an absent file. -/
def isMissingOutcome : FileOutcome → Bool
  | .missing => true
  | _ => false

/-- Stand-in for the raw DEFLATE body of `zlib.compress(..., wbits=-15)`
used only to exhibit concrete runs; the properties proved below about
timestamp (in)dependence hold for the framing `gzipCompress` adds around
any DEFLATE body. -/
def deflateStub (data : List Nat) : List Nat := data

/-- A concrete data directory holding only `index.html` (two bytes),
used to exhibit concrete `embed_web_assets` runs. -/
def cxEnv : RunEnv :=
  ⟨true, fun n => if n = "index.html" then .ok [104, 105] else .missing⟩

/-- A concrete data directory where `index.html` reads fine,
`style.css` is absent, and processing `setup.html` raises. -/
def errEnv : RunEnv :=
  ⟨true, fun n =>
    if n = "index.html" then .ok [104]
    else if n = "setup.html" then .err
    else .missing⟩

/-- A concrete data directory that exists but holds none of the
allow-listed files. -/
def emptyEnv : RunEnv := ⟨true, fun _ => .missing⟩

/-! ## Supporting lemmas -/

/-- `compress_content` depends on the clock only through the timestamp
stored in the gzip header, which is reduced modulo 2^32. -/
theorem compress_content_mtime_congr (deflate : List Nat → List Nat)
    (m₁ m₂ : Nat) (h : m₁ % 4294967296 = m₂ % 4294967296) :
    compress_content deflate m₁ = compress_content deflate m₂ := by
  funext data
  simp only [compress_content, gzipCompress, gzipHeader, h]

/-- Conversely, runs whose clock seconds differ modulo 2^32 produce
different compressed bytes, whatever the DEFLATE body is: the streams
already differ within the first ten header bytes. -/
theorem gzipCompress_mtime_ne (deflate : List Nat → List Nat)
    (data : List Nat) (m₁ m₂ : Nat)
    (h : m₁ % 4294967296 ≠ m₂ % 4294967296) :
    gzipCompress deflate m₁ data ≠ gzipCompress deflate m₂ data := by
  intro heq
  apply h
  have h10 : (gzipCompress deflate m₁ data).take 10 =
      (gzipCompress deflate m₂ data).take 10 := by rw [heq]
  simp only [gzipCompress, gzipHeader, le32, List.cons_append,
    List.nil_append, List.take_succ_cons, List.take_zero,
    List.cons.injEq, and_true] at h10
  omega

/-- The no-error case of the per-file loop splits over list append. -/
theorem processFiles_append (compress : List Nat → List Nat) (env : RunEnv)
    (l₁ l₂ : List String) (h : ∀ g ∈ l₁, env.files g ≠ .err) :
    processFiles compress env (l₁ ++ l₂) =
      ⟨(processFiles compress env l₂).success,
       (processFiles compress env l₁).headers ++
         (processFiles compress env l₂).headers,
       (processFiles compress env l₁).filesData ++
         (processFiles compress env l₂).filesData,
       (processFiles compress env l₁).warnings ++
         (processFiles compress env l₂).warnings⟩ := by
  induction l₁ with
  | nil => simp [processFiles]
  | cons name rest ih =>
    have hname : env.files name ≠ .err := h name (by simp)
    have hrest : ∀ g ∈ rest, env.files g ≠ .err :=
      fun g hg => h g (by simp [hg])
    cases hfo : env.files name with
    | missing => simp [processFiles, hfo, ih hrest]
    | err => exact absurd hfo hname
    | ok content => simp [processFiles, hfo, ih hrest]

/-- When no present file raises, the loop succeeds, embeds exactly the
present files, and warns exactly about the absent ones. -/
theorem processFiles_no_err (compress : List Nat → List Nat) (env : RunEnv)
    (l : List String) (h : ∀ g ∈ l, env.files g ≠ .err) :
    (processFiles compress env l).success = true ∧
    (processFiles compress env l).filesData.length =
      (l.filter (fun g => isOkOutcome (env.files g))).length ∧
    (processFiles compress env l).warnings =
      (l.filter (fun g => isMissingOutcome (env.files g))).map skipWarning := by
  induction l with
  | nil => simp [processFiles]
  | cons name rest ih =>
    have hname : env.files name ≠ .err := h name (by simp)
    have hrest : ∀ g ∈ rest, env.files g ≠ .err :=
      fun g hg => h g (by simp [hg])
    obtain ⟨ih1, ih2, ih3⟩ := ih hrest
    cases hfo : env.files name with
    | missing =>
      simp [processFiles, hfo, ih1, ih2, ih3, isOkOutcome, isMissingOutcome]
    | err => exact absurd hfo hname
    | ok content =>
      simp [processFiles, hfo, ih1, ih2, ih3, isOkOutcome, isMissingOutcome]

/-- A text without the needle is left unchanged by the patch
transformation. -/
theorem patchBuilderContent_of_no_needle (x : String)
    (h : pyIn fsSubtypeNeedle x = false) : patchBuilderContent x = x := by
  unfold patchBuilderContent
  rw [h]
  simp

/-! ## Claim theorems -/

/-- C1 (amended): for every data directory and any fixed DEFLATE body,
running `embed_web_assets` twice on unchanged input files produces
byte-identical generated headers (per-file and master) provided both
runs store the same gzip header timestamp, i.e. the same value of
`int(time.time())` modulo 2^32; the output is otherwise a deterministic
function of the inputs. -/
theorem embed_idempotent_fixed_mtime (deflate : List Nat → List Nat)
    (env : RunEnv) (m₁ m₂ : Nat)
    (h : m₁ % 4294967296 = m₂ % 4294967296) :
    embed_web_assets (compress_content deflate m₁) env =
      embed_web_assets (compress_content deflate m₂) env := by
  rw [compress_content_mtime_congr deflate m₁ m₂ h]

/-- Witness for C1's amended theorem at a concrete environment and two
concrete timestamps that agree modulo 2^32. -/
theorem embed_idempotent_fixed_mtime_witness :
    embed_web_assets (compress_content deflateStub 4294967301) cxEnv =
      embed_web_assets (compress_content deflateStub 5) cxEnv :=
  embed_idempotent_fixed_mtime deflateStub cxEnv 4294967301 5 (by decide)

set_option maxRecDepth 1000000 in
/-- C1 counterexample: two runs of `embed_web_assets` on the same
unchanged data directory, one clock second apart, produce different
generated headers — `gzip.compress` with its default `mtime=None`
stores the wall-clock time in the compressed stream, whose bytes are
hex-dumped into the headers. -/
theorem embed_two_runs_differ_cx :
    embed_web_assets (compress_content deflateStub 1700000000) cxEnv ≠
      embed_web_assets (compress_content deflateStub 1700000001) cxEnv := by
  decide

/-- C2: every invocation of `embed_web_assets.py` whose argument vector
does not have exactly two positional arguments after the script name
prints the usage line and exits with code 1 without reading or writing
any file. -/
theorem embed_cli_bad_argc (argv : List String)
    (compress : List Nat → List Nat) (env : RunEnv)
    (h : argv.length ≠ 3) :
    embedCliMain argv compress env = ⟨1, true, none⟩ := by
  unfold embedCliMain
  rw [if_neg h]

/-- Witness for C2 at the four-entry argument vector
`<script> <data_dir> <output_dir> --idf` that the pre-build hook
constructs for ESP-IDF-only builds. -/
theorem embed_cli_bad_argc_witness :
    embedCliMain (idfHookArgv "data" "include") deflateStub cxEnv =
      ⟨1, true, none⟩ :=
  embed_cli_bad_argc (idfHookArgv "data" "include") deflateStub cxEnv
    (by decide)

/-- C3: a WAV input whose channel count is not 1 or whose sample width
is not 2 bytes makes `convert_wav_to_pcm.py` print the error message
and exit with code 1, without writing or creating the output file. -/
theorem convert_wav_rejects_bad_format (argv : List String) (wav : WavFile)
    (hargv : argv.length = 3)
    (h : wav.channels ≠ 1 ∨ wav.sampwidth ≠ 2) :
    convertWavMain argv wav = ⟨1, none, false, true, false⟩ := by
  unfold convertWavMain
  rw [if_pos hargv, if_pos h]

/-- Witness for C3 at a concrete stereo 16-bit input. -/
theorem convert_wav_rejects_bad_format_witness :
    convertWavMain ["convert_wav_to_pcm.py", "in.wav", "gong.pcm"]
      ⟨2, 2, 16000, [0, 1, 2, 3]⟩ = ⟨1, none, false, true, false⟩ :=
  convert_wav_rejects_bad_format _ _ (by decide) (by decide)

/-- C4: a mono 16-bit WAV input makes `convert_wav_to_pcm.py` exit with
code 0 and write an output whose bytes are exactly the input's PCM
frame bytes, so the output length equals the input frame byte
length (at rates other than 16 kHz only the non-fatal warning
differs). -/
theorem convert_wav_copies_frames (argv : List String) (wav : WavFile)
    (hargv : argv.length = 3) (hch : wav.channels = 1)
    (hsw : wav.sampwidth = 2) :
    (convertWavMain argv wav).exitCode = 0 ∧
    (convertWavMain argv wav).outputWritten = some wav.frames ∧
    ∀ out, (convertWavMain argv wav).outputWritten = some out →
      out.length = wav.frames.length := by
  have hcond : ¬(wav.channels ≠ 1 ∨ wav.sampwidth ≠ 2) := by
    simp [hch, hsw]
  unfold convertWavMain
  rw [if_pos hargv, if_neg hcond]
  refine ⟨rfl, rfl, ?_⟩
  intro out hout
  simp only [Option.some.injEq] at hout
  rw [← hout]

/-- Witness for C4 at a concrete 16 kHz mono 16-bit input. -/
theorem convert_wav_copies_frames_witness :
    (convertWavMain ["convert_wav_to_pcm.py", "in.wav", "gong.pcm"]
        ⟨1, 2, 16000, [10, 20, 30, 40]⟩).exitCode = 0 ∧
    (convertWavMain ["convert_wav_to_pcm.py", "in.wav", "gong.pcm"]
        ⟨1, 2, 16000, [10, 20, 30, 40]⟩).outputWritten =
      some [10, 20, 30, 40] := by
  have h := convert_wav_copies_frames
    ["convert_wav_to_pcm.py", "in.wav", "gong.pcm"]
    ⟨1, 2, 16000, [10, 20, 30, 40]⟩ (by decide) rfl rfl
  exact ⟨h.1, h.2.1⟩

/-- C5: with no truthy `--version` override and a configuration from
which `load_version` raises (file absent, or the `env:` section or its
`custom_fw_version` key missing), `build_ota.py` exits non-zero before
invoking any external build command, and no artifact is copied. -/
theorem build_ota_missing_version_fails (args : OtaArgs)
    (ini : Option IniFile) (e : OtaError)
    (hver : truthyStr args.version = false)
    (hload : load_version ini args.envName = .error e) :
    otaMain args ini = ⟨false, [], []⟩ := by
  have hov : (match args.version with
      | some v => if v = "" then none else some v
      | none => none) = (none : Option String) := by
    cases hv : args.version with
    | none => rfl
    | some v =>
      simp only [truthyStr, hv, decide_eq_false_iff_not, not_not] at hver
      simp [hver]
  simp only [otaMain, hov, hload]

/-- Witness for C5: the default environment, no override, and a
`platformio.ini` whose `env:` section lacks `custom_fw_version`. -/
theorem build_ota_missing_version_fails_witness :
    otaMain ⟨"seeed_xiao_esp32s3", "XIAOS3Sense", none, false, false⟩
      (some [("env:seeed_xiao_esp32s3", [("board", "seeed_xiao_esp32s3")])]) =
      ⟨false, [], []⟩ :=
  build_ota_missing_version_fails _ _ OtaError.keyError rfl rfl

/-- C6: the version-stamping script always emits
`<base>+<short-hash-or-fallback>`, and when no project-configuration
version is set and every git query fails it produces `0.0.0+nogit`
without raising. -/
theorem pio_version_fallback (custom tagResult hashResult : Option String) :
    fw_version custom tagResult hashResult =
      read_version_base custom tagResult ++ "+" ++
        read_git_hash hashResult ∧
    (truthyStr custom = false → tagResult = none → hashResult = none →
      fw_version custom tagResult hashResult = "0.0.0+nogit") := by
  refine ⟨rfl, ?_⟩
  intro h1 h2 h3
  subst h2; subst h3
  cases custom with
  | none => decide
  | some s =>
    have hs : s = "" := by simpa [truthyStr] using h1
    subst hs
    decide

/-- Witness for C6 with every input absent. -/
theorem pio_version_fallback_witness :
    fw_version none none none = "0.0.0+nogit" :=
  (pio_version_fallback none none none).2 rfl rfl rfl

/-- C7 counterexample: applying the patch twice does not always equal
applying it once — on a file containing the original subtype literal
twice, the first run rewrites only the first occurrence
(`content.replace(needle, ..., 1)`), so a second run rewrites the
second occurrence and changes the file again. -/
theorem patch_twice_differs_cx :
    patchBuilderContent
        (patchBuilderContent (fsSubtypeNeedle ++ fsSubtypeNeedle)) ≠
      patchBuilderContent (fsSubtypeNeedle ++ fsSubtypeNeedle) := by
  decide

/-- C7 (amended): applying the patch to a file that no longer contains
the original subtype string literal leaves the file unchanged (the
function returns without writing), and applying it twice equals
applying it once provided a single application removes every
occurrence of the literal — which holds in particular for the upstream
builder file, which contains the literal at most once. -/
theorem patch_already_patched_noop (content : String) :
    (pyIn fsSubtypeNeedle content = false →
      patch_espressif32_builder (some content) = ⟨some content, false⟩) ∧
    (pyIn fsSubtypeNeedle (patchBuilderContent content) = false →
      patchBuilderContent (patchBuilderContent content) =
        patchBuilderContent content) := by
  constructor
  · intro h
    simp [patch_espressif32_builder, h]
  · intro h
    exact patchBuilderContent_of_no_needle _ h

/-- Witness for C7's amended theorem: an already-patched text is left
unchanged, and a text containing the literal exactly once is a fixed
point after one application. -/
theorem patch_already_patched_noop_witness :
    patch_espressif32_builder (some "x = 1\n") = ⟨some "x = 1\n", false⟩ ∧
    patchBuilderContent
        (patchBuilderContent ("if " ++ fsSubtypeNeedle ++ ":")) =
      patchBuilderContent ("if " ++ fsSubtypeNeedle ++ ":") :=
  ⟨(patch_already_patched_noop "x = 1\n").1 (by decide),
   (patch_already_patched_noop ("if " ++ fsSubtypeNeedle ++ ":")).2
     (by decide)⟩

/-- C8: if processing a present allow-listed file raises, the run
returns failure (so the CLI exits 1), the files after it are not
processed, the master registry header is not written, and exactly the
per-file headers of the error-free prefix remain in place. -/
theorem embed_error_aborts (compress : List Nat → List Nat) (env : RunEnv)
    (pre post : List String) (f : String)
    (hdir : env.dataDirExists = true)
    (hsplit : embed_files = pre ++ f :: post)
    (hf : env.files f = .err)
    (hpre : ∀ g ∈ pre, env.files g ≠ .err) :
    embed_web_assets compress env =
      ⟨false, (processFiles compress env pre).headers, none,
        (processFiles compress env pre).warnings⟩ ∧
    ∀ a₁ a₂ a₃ : String,
      (embedCliMain [a₁, a₂, a₃] compress env).exitCode = 1 := by
  have hrun : embed_web_assets compress env =
      ⟨false, (processFiles compress env pre).headers, none,
        (processFiles compress env pre).warnings⟩ := by
    unfold embed_web_assets
    rw [hdir, hsplit, processFiles_append compress env pre (f :: post) hpre]
    simp [processFiles, hf]
  refine ⟨hrun, ?_⟩
  intro a₁ a₂ a₃
  unfold embedCliMain
  rw [if_pos (by simp), hrun]
  simp

/-- Witness for C8: `index.html` reads fine, `style.css` is absent,
`setup.html` raises; the run fails and writes no master header while
the CLI exits 1. -/
theorem embed_error_aborts_witness :
    (embed_web_assets (compress_content deflateStub 0) errEnv).success =
      false ∧
    (embed_web_assets (compress_content deflateStub 0) errEnv).masterWritten =
      none ∧
    (embedCliMain ["embed_web_assets.py", "data", "include"]
        (compress_content deflateStub 0) errEnv).exitCode = 1 := by
  have h := embed_error_aborts (compress_content deflateStub 0) errEnv
    ["index.html", "style.css"]
    ["wifi-setup.html", "live.html", "guide.html", "ota.html", "sip.html",
     "tr064.html", "logs-doorbell.html", "logs-camera.html"]
    "setup.html" rfl rfl rfl (by decide)
  exact ⟨by rw [h.1], by rw [h.1], h.2 "embed_web_assets.py" "data" "include"⟩

/-- C9: when the data directory exists and no present file raises,
absent allow-listed files are skipped with one warning each and the run
still succeeds, writing the master header whose `embedded_files_count`
equals the number of files actually embedded (possibly 0). -/
theorem embed_missing_files_tolerated (compress : List Nat → List Nat)
    (env : RunEnv) (hdir : env.dataDirExists = true)
    (h : ∀ g ∈ embed_files, env.files g ≠ .err) :
    (embed_web_assets compress env).success = true ∧
    (embed_web_assets compress env).masterWritten =
      some (generate_master_header
        (processFiles compress env embed_files).filesData) ∧
    embeddedFilesCount (processFiles compress env embed_files).filesData =
      (embed_files.filter (fun g => isOkOutcome (env.files g))).length ∧
    (embed_web_assets compress env).warnings =
      (embed_files.filter (fun g => isMissingOutcome (env.files g))).map
        skipWarning := by
  obtain ⟨h1, h2, h3⟩ := processFiles_no_err compress env embed_files h
  have hres : embed_web_assets compress env =
      ⟨true, (processFiles compress env embed_files).headers,
        some (generate_master_header
          (processFiles compress env embed_files).filesData),
        (processFiles compress env embed_files).warnings⟩ := by
    unfold embed_web_assets
    rw [hdir]
    simp [h1]
  exact ⟨by rw [hres], by rw [hres], h2, by rw [hres]; exact h3⟩

/-- Witness for C9 at a data directory that exists but holds none of
the allow-listed files: the run succeeds with an embedded-file count of
zero and one warning per file. -/
theorem embed_missing_files_tolerated_witness :
    (embed_web_assets (compress_content deflateStub 0) emptyEnv).success =
      true ∧
    embeddedFilesCount
      (processFiles (compress_content deflateStub 0) emptyEnv
        embed_files).filesData = 0 ∧
    (embed_web_assets (compress_content deflateStub 0) emptyEnv).warnings =
      embed_files.map skipWarning := by
  have h := embed_missing_files_tolerated (compress_content deflateStub 0)
    emptyEnv rfl (by decide)
  refine ⟨h.1, ?_, ?_⟩
  · rw [h.2.2.1]; decide
  · rw [h.2.2.2]; decide

/-- C10: `get_mime_type` returns the table entry for each of the eight
known lowercased extensions and `application/octet-stream` for every
other extension. -/
theorem get_mime_type_table (filename : String) :
    (pyLower (pathSuffix filename) = ".html" →
      get_mime_type filename = "text/html; charset=utf-8") ∧
    (pyLower (pathSuffix filename) = ".css" →
      get_mime_type filename = "text/css; charset=utf-8") ∧
    (pyLower (pathSuffix filename) = ".js" →
      get_mime_type filename = "application/javascript; charset=utf-8") ∧
    (pyLower (pathSuffix filename) = ".json" →
      get_mime_type filename = "application/json") ∧
    (pyLower (pathSuffix filename) = ".svg" →
      get_mime_type filename = "image/svg+xml") ∧
    (pyLower (pathSuffix filename) = ".png" →
      get_mime_type filename = "image/png") ∧
    (pyLower (pathSuffix filename) = ".jpg" →
      get_mime_type filename = "image/jpeg") ∧
    (pyLower (pathSuffix filename) = ".ico" →
      get_mime_type filename = "image/x-icon") ∧
    (pyLower (pathSuffix filename) ∉
        [".html", ".css", ".js", ".json", ".svg", ".png", ".jpg", ".ico"] →
      get_mime_type filename = "application/octet-stream") := by
  refine ⟨?_, ?_, ?_, ?_, ?_, ?_, ?_, ?_, ?_⟩ <;> intro h
  · simp only [get_mime_type, h]; decide
  · simp only [get_mime_type, h]; decide
  · simp only [get_mime_type, h]; decide
  · simp only [get_mime_type, h]; decide
  · simp only [get_mime_type, h]; decide
  · simp only [get_mime_type, h]; decide
  · simp only [get_mime_type, h]; decide
  · simp only [get_mime_type, h]; decide
  · simp only [List.mem_cons, List.not_mem_nil, or_false] at h
    push_neg at h
    obtain ⟨h1, h2, h3, h4, h5, h6, h7, h8⟩ := h
    unfold get_mime_type
    have hnone : mimeTypes.find?
        (fun p => p.1 = pyLower (pathSuffix filename)) = none := by
      rw [List.find?_eq_none]
      intro x hx
      simp only [mimeTypes, List.mem_cons, List.not_mem_nil, or_false] at hx
      rcases hx with rfl | rfl | rfl | rfl | rfl | rfl | rfl | rfl
      · simp only [decide_eq_true_eq]; exact fun hh => h1 hh.symm
      · simp only [decide_eq_true_eq]; exact fun hh => h2 hh.symm
      · simp only [decide_eq_true_eq]; exact fun hh => h3 hh.symm
      · simp only [decide_eq_true_eq]; exact fun hh => h4 hh.symm
      · simp only [decide_eq_true_eq]; exact fun hh => h5 hh.symm
      · simp only [decide_eq_true_eq]; exact fun hh => h6 hh.symm
      · simp only [decide_eq_true_eq]; exact fun hh => h7 hh.symm
      · simp only [decide_eq_true_eq]; exact fun hh => h8 hh.symm
    rw [hnone]
    rfl

/-- Witness for C10 at a known and an unknown extension. -/
theorem get_mime_type_table_witness :
    get_mime_type "index.html" = "text/html; charset=utf-8" ∧
    get_mime_type "gong.pcm" = "application/octet-stream" :=
  ⟨(get_mime_type_table "index.html").1 (by decide),
   (get_mime_type_table "gong.pcm").2.2.2.2.2.2.2.2 (by decide)⟩

end HKK
